import Mathlib

/-!
Verification of the Agent Execution Supervisor of `shannon-proxy`
(`src/src/ai/claude-executor.ts` and the deliverable writer in
`src/unnamed/part_000`), as a shallow embedding in Lean 4.

The embedding models:
* the post-stream spending-cap heuristic and the error-totalizing catch of
  `runClaudePrompt` (lines 195-311 of `claude-executor.ts`);
* `validateAgentOutput` (lines 149-191);
* `writeErrorLog` (lines 117-147);
* the retry loop `runClaudePromptWithRetry` (lines 382-529), as a pure
  function from per-attempt behaviours (what the awaited calls return or
  throw) to a trace of external effects (git checkpoints, executions,
  validations, audit writes, commits, rollbacks, sleeps) plus the
  returned-or-thrown outcome;
* `saveDeliverableFile` from `src/unnamed/part_000`.

External modules that are only imported by the file under `src/`
(`error-handling.ts`, `git-manager.ts`, the audit session, the validator
registry, the SDK event stream) are modelled as parameters or, where a
claim depends on their behaviour, from the spec (marked in doc comments).
-/

deriving instance DecidableEq for Except

namespace ShannonProxy

/-- A JavaScript error value as observed by the executor code: its
`message`, its constructor name (used for `errorType`), the `PentestError`
classification tag (`kind`, second constructor argument of `PentestError`),
its `retryable` flag (third constructor argument), and the optional
`duration` / `cost` / `partialResults` properties read in the retry
supervisor's catch block (`err.duration || 0`, `err.cost || 0`,
`err.partialResults`). Fields named `partCost` style to keep identifiers
plain. -/
structure JsError where
  message : String
  errName : String := "Error"
  kind : String := ""
  retryable : Bool := false
  duration : Nat := 0
  cost : Rat := 0
  partResults : Option String := none
deriving DecidableEq, Repr

/-- Modelled from the spec: `isRetryableError` lives in
`src/error-handling.ts`, which is not part of the provided sources (only
its import in `claude-executor.ts` is visible). Per spec section 7, the
classification honours the `PentestError` retryable flag: the billing-cap
error (constructed with `retryable = true`) is retryable and the
final-attempt validation `PentestError` (constructed with
`retryable = false`) is fatal. We model the classifier as reading the
error's retryable flag. -/
def isRetryableError (e : JsError) : Bool := e.retryable

/-- The result record returned by `runClaudePrompt`
(interface `ClaudePromptResult`, lines 33-45). `partCost` embeds the
`partialCost` field. -/
structure ClaudePromptResult where
  result : Option String := none
  success : Bool
  duration : Nat := 0
  turns : Option Nat := none
  cost : Rat := 0
  partCost : Option Rat := none
  apiErrorDetected : Bool := false
  error : Option String := none
  errorType : Option String := none
  prompt : Option String := none
  retryable : Option Bool := none
deriving DecidableEq, Repr

/-- The accumulator returned by `processMessageStream`
(interface `MessageLoopResult`, lines 314-319). -/
structure MessageLoopResult where
  turnCount : Nat
  result : Option String
  apiErrorDetected : Bool
  cost : Rat
deriving DecidableEq, Repr

/-- JavaScript `String.prototype.includes`: `s` contains `pat` as a
contiguous substring. -/
def containsSub (s pat : String) : Bool :=
  (List.range (s.toList.length + 1)).any (fun i => pat.toList.isPrefixOf (s.toList.drop i))

/-- The literal keyword list `BILLING_KEYWORDS` (line 257). -/
def BILLING_KEYWORDS : List String := ["spending", "cap", "limit", "budget", "resets"]

/-- JavaScript `toLowerCase` (the billing keywords and the texts compared
against them are ASCII, where the two lowering functions agree),
implemented over the character list so that it evaluates by `decide`. -/
def toLowerStr (s : String) : String := String.mk (s.toList.map Char.toLower)

/-- Lines 256-260: lowercase the result text (empty if `null`) and test
whether some billing keyword occurs in it. -/
def looksLikeBillingError (result : Option String) : Bool :=
  BILLING_KEYWORDS.any (fun kw => containsSub (toLowerStr (result.getD "")) kw)

/-- The `PentestError` thrown by the spending-cap safeguard
(lines 263-267): classified `billing`, retryable. When `result` is `null`,
the JavaScript template interpolation of `result?.slice(0, 100)` renders
the text `undefined`. -/
def billingCapError (m : MessageLoopResult) : JsError :=
  { message := "Spending cap likely reached (turns=" ++ toString m.turnCount
      ++ ", cost=$0): " ++ (match m.result with
        | some s => s.take 100
        | none => "undefined"),
    errName := "PentestError",
    kind := "billing",
    retryable := true }

/-- Lines 255-269: the spending-cap safeguard run after the message stream
completes. Returns the error it throws, if it triggers. -/
def spendingCapCheck (m : MessageLoopResult) : Option JsError :=
  if m.turnCount ≤ 2 ∧ m.cost = 0 then
    if looksLikeBillingError m.result then some (billingCapError m) else none
  else none

/-- The success record built at lines 280-288 from the completed stream's
accumulators (`duration` comes from the stopped timer, abstracted as `d`). -/
def successRecord (d : Nat) (m : MessageLoopResult) : ClaudePromptResult :=
  { result := m.result,
    success := true,
    duration := d,
    turns := some m.turnCount,
    cost := m.cost,
    partCost := some m.cost,
    apiErrorDetected := m.apiErrorDetected }

/-- The body of `runClaudePrompt`'s `try` block after the stream has been
consumed: either the stream itself threw (`so = .error e`), or the
spending-cap safeguard throws, or the success record is returned
(lines 238-288). `so` is the outcome of `await processMessageStream`. -/
def runClaudePromptTry (d : Nat) (so : Except JsError MessageLoopResult) :
    Except JsError ClaudePromptResult :=
  match so with
  | Except.error e => Except.error e
  | Except.ok m =>
    match spendingCapCheck m with
    | some be => Except.error be
    | none => Except.ok (successRecord d m)

/-- The value of the local variable `totalCost` at the moment the catch
block runs: it is still `0` unless the stream completed (assignment at
line 249 precedes the spending-cap throw). -/
def costAtCatch (so : Except JsError MessageLoopResult) : Rat :=
  match so with
  | Except.error _ => 0
  | Except.ok m => m.cost

/-- `runClaudePrompt` (lines 195-311): the `try` body composed with the
catch-all handler (lines 290-310) that converts any thrown error into a
failure record instead of propagating it. `fullPrompt` is the
context-augmented prompt built at line 207. -/
def runClaudePrompt (d : Nat) (fullPrompt : String)
    (so : Except JsError MessageLoopResult) : ClaudePromptResult :=
  match runClaudePromptTry d so with
  | Except.ok r => r
  | Except.error err =>
    { error := some err.message,
      errorType := some err.errName,
      prompt := some (fullPrompt.take 100 ++ "..."),
      success := false,
      duration := d,
      cost := costAtCatch so,
      retryable := some (isRetryableError err) }

/-- JavaScript truthiness of the `result` field as used in
`!result.result` (line 158): `null`/`undefined` and the empty string are
falsy. -/
def jsTruthyStr : Option String → Bool
  | none => false
  | some s => s ≠ ""

/-- `validateAgentOutput` (lines 149-191). The validator registry
`AGENT_VALIDATORS` lives in `src/constants.ts` (not under `src/`), so the
lookup is a parameter `validators`; a registered validator is a function of
the workspace directory that either returns a boolean or throws. The
surrounding `try` converts a validator exception into `false`. -/
def validateAgentOutput (result : ClaudePromptResult) (agentName : Option String)
    (validators : String → Option (String → Except JsError Bool))
    (sourceDir : String) : Bool :=
  if result.success = false || jsTruthyStr result.result = false then
    false
  else
    match agentName.bind validators with
    | none => true
    | some v =>
      match v sourceDir with
      | Except.ok b => b
      | Except.error _ => false

/-- `writeErrorLog` (lines 117-147): appending the error-log line may fail
(`appendErr` is the message of the failure, if any); the internal catch
turns the failure into a local diagnostic line and the function always
returns normally. The payload of the log record is abstracted; the
recovery behaviour is what the claims are about. -/
def writeErrorLog (appendErr : Option String) : Except String (List String) :=
  match appendErr with
  | none => Except.ok []
  | some m => Except.ok ["    (Failed to write error log: " ++ m ++ ")"]

/-! ### The deliverable writer (`src/unnamed/part_000`) -/

/-- Outcome of the two file-system calls `mkdirSync` and `writeFileSync`
made by `saveDeliverableFile`: `none` means the call succeeds, `some msg`
means it throws an error with message `msg`. -/
structure FsBehavior where
  mkdirErr : Option String
  writeErr : Option String
deriving DecidableEq, Repr

/-- `path.join` restricted to plain relative segments, as used by
`saveDeliverableFile`. -/
def joinPath (a b : String) : String := a ++ "/" ++ b

/-- `saveDeliverableFile` (`src/unnamed/part_000`, lines 24-56): ensure
`targetDir/deliverables` exists (a `mkdirSync` failure whose message
contains `EEXIST` is swallowed), then write `content` to the file in a
single `writeFileSync` call, returning the written path; failures of
either call are rethrown with a descriptive message naming the underlying
error. -/
def saveDeliverableFile (fsb : FsBehavior) (targetDir filename _content : String) :
    Except String String :=
  let deliverablesDir := joinPath targetDir "deliverables"
  let filepath := joinPath deliverablesDir filename
  let afterMkdir : Except String Unit :=
    match fsb.mkdirErr with
    | none => Except.ok ()
    | some msg =>
      if containsSub msg "EEXIST" then Except.ok ()
      else Except.error ("Cannot create deliverables directory: " ++ msg
        ++ ". Check Docker volume permissions.")
  match afterMkdir with
  | Except.error e => Except.error e
  | Except.ok _ =>
    match fsb.writeErr with
    | none => Except.ok filepath
    | some msg => Except.error ("Cannot write deliverable file: " ++ msg
        ++ ". Check Docker volume permissions (UID mismatch?).")

/-! ### The retry supervisor (`runClaudePromptWithRetry`, lines 382-529)

The supervisor is modelled as a pure function from
* per-attempt behaviours (`AttemptBehavior`: what `await runClaudePrompt`
  evaluates to for that attempt — a returned result or a thrown error —
  and what `validateAgentOutput` returns when called), and
* a list of booleans saying whether each successive audit-sink write's
  underlying I/O succeeds (the audit session's methods themselves never
  throw: this is spec-modelled, see `Event.auditStart`),
to a trace of external effects and the returned-or-thrown outcome.
Console logging, `getGitCommitHash` (a read), and the timing metrics are
elided from the trace; everything that touches the workspace or the audit
sink, plus the backoff sleep, is an event. -/

/-- One external effect of the supervisor, in program order.
`createGitCheckpoint` (line 405), `auditSession.initialize` (line 401),
`auditSession.startAgent` (line 409), the `runClaudePrompt` call
(line 413), the `validateAgentOutput` call (line 419),
`auditSession.endAgent` (lines 443, 454, 490), `commitGitSuccess`
(line 446), `rollbackGitWorkspace` (lines 472, 502, 507, 521) and the
backoff sleep (line 519). Audit events carry the success bit of the
underlying sink write; modelled from the spec (section 4.5), a failed
write is swallowed inside the audit recorder and only this recorded bit
differs. -/
inductive Event where
  | checkpoint (attempt : Nat)
  | auditInit (ok : Bool)
  | auditStart (attempt : Nat) (fullPrompt : String) (ok : Bool)
  | execute (attempt : Nat)
  | validate (attempt : Nat)
  | auditEnd (attempt : Nat) (success : Bool) (errMsg : Option String) (ok : Bool)
  | commitSuccess
  | rollback (reason : String)
  | sleep (attempt : Nat)
deriving DecidableEq, Repr

/-- Mutable locals of the retry loop: `lastError` (line 393, `undefined`
at start), `retryContext` (line 394), plus the remaining audit-write I/O
pattern. -/
structure LoopState where
  lastError : Option JsError
  retryContext : String
  pat : List Bool
deriving DecidableEq, Repr

/-- Success bit of the next audit-sink write (writes beyond the supplied
pattern succeed). -/
def peekPat (s : LoopState) : Bool := s.pat.headD true

/-- Consume one audit-sink write. -/
def popPat (s : LoopState) : LoopState := { s with pat := s.pat.tail }

/-- How one loop iteration ends: `ret` is the `return result` at line 448,
`thr` is a `throw` escaping the iteration, `next` falls through to the
next attempt. -/
inductive StepSig where
  | ret (r : ClaudePromptResult)
  | thr (e : JsError)
  | next
deriving DecidableEq, Repr

/-- Behaviour of one attempt's awaited calls: `exec` is what
`await runClaudePrompt` evaluates to (a result, or a thrown error), and
`validationPasses` is what `await validateAgentOutput` returns if it is
reached (the registry and workspace contents that determine it are
external). -/
structure AttemptBehavior where
  exec : Except JsError ClaudePromptResult
  validationPasses : Bool
deriving DecidableEq, Repr

/-- Line 207 / line 408: prepend the retry context to the prompt when it
is nonempty. -/
def fullPromptOf (ctx p : String) : String :=
  if ctx ≠ "" then ctx ++ "\n\n" ++ p else p

/-- The `Error` created on a validation failure (lines 464-469):
message depends on whether an API error was detected mid-stream. A plain
`Error` carries no `PentestError` retryable flag; its classification is
never consulted by the supervisor (it is only ever thrown after the loop,
at line 528). -/
def valFailError (apiErr : Bool) : JsError :=
  if apiErr then
    { message := "API Error: terminated with validation failure", errName := "Error" }
  else
    { message := "Output validation failed", errName := "Error" }

/-- The fatal `PentestError` thrown when the final attempt fails
validation (lines 475-480). -/
def pentestValidationError (dsc : String) (mr : Nat) : JsError :=
  { message := "Agent " ++ dsc ++ " failed output validation after "
      ++ toString mr ++ " attempts. Required deliverable files were not created.",
    errName := "PentestError",
    kind := "validation",
    retryable := false }

/-- The catch block of the retry loop (lines 485-525): record the error as
`lastError`, write the attempt-end audit record, then classify. A fatal
error rolls back and is rethrown; a retryable error on a non-final attempt
rolls back, merges any partial results into the retry context and sleeps;
a retryable error on the final attempt rolls back and falls out of the
loop. -/
def catchPart (a mr : Nat) (aud : Bool) (c : String) (err : JsError)
    (s : LoopState) : List Event × StepSig × LoopState :=
  let s1 : LoopState := { s with lastError := some err }
  let endEvs : List Event :=
    if aud then [Event.auditEnd a false (some err.message) (peekPat s1)] else []
  let s2 := if aud then popPat s1 else s1
  if isRetryableError err = false then
    (endEvs ++ [Event.rollback "non-retryable error cleanup"], StepSig.thr err, s2)
  else if a < mr then
    let s3 : LoopState :=
      match err.partResults with
      | some pr => { s2 with retryContext := c ++ "\n\nPrevious partial results: " ++ pr }
      | none => s2
    (endEvs ++ [Event.rollback "retryable error cleanup", Event.sleep a], StepSig.next, s3)
  else
    (endEvs ++ [Event.rollback "final failure cleanup"], StepSig.next, s2)

/-- One iteration of the retry loop (lines 404-525) for attempt `a`:
checkpoint, audit attempt-start, execute; on a success result validate and
either commit (after the success audit-end record) and return, or record
the validation failure and roll back / throw the attempts-exhausted
`PentestError` — which is caught by the iteration's own catch block; on a
failure result (`success = false`) fall through to the next attempt; on a
thrown error run the catch block. -/
def attemptStep (beh : AttemptBehavior) (a mr : Nat) (aud : Bool)
    (p c dsc : String) (s : LoopState) : List Event × StepSig × LoopState :=
  let preEvs : List Event :=
    if aud then
      [Event.checkpoint a,
       Event.auditStart a (fullPromptOf s.retryContext p) (peekPat s),
       Event.execute a]
    else
      [Event.checkpoint a, Event.execute a]
  let s0 := if aud then popPat s else s
  match beh.exec with
  | Except.error err =>
    let cp := catchPart a mr aud c err s0
    (preEvs ++ cp.1, cp.2.1, cp.2.2)
  | Except.ok result =>
    if result.success then
      let valEvs := preEvs ++ [Event.validate a]
      if beh.validationPasses then
        let endEvs : List Event :=
          if aud then [Event.auditEnd a true none (peekPat s0)] else []
        let s1 := if aud then popPat s0 else s0
        (valEvs ++ endEvs ++ [Event.commitSuccess], StepSig.ret result, s1)
      else
        let endEvs : List Event :=
          if aud then
            [Event.auditEnd a false (some "Output validation failed") (peekPat s0)]
          else []
        let s1 := if aud then popPat s0 else s0
        let s2 : LoopState := { s1 with lastError := some (valFailError result.apiErrorDetected) }
        if a < mr then
          (valEvs ++ endEvs ++ [Event.rollback "validation failure"], StepSig.next, s2)
        else
          let cp := catchPart a mr aud c (pentestValidationError dsc mr) s2
          (valEvs ++ endEvs ++ cp.1, cp.2.1, cp.2.2)
    else
      (preEvs, StepSig.next, s0)

/-- The outcome of the supervisor: the returned result, or the thrown
value — `Except.error none` models `throw lastError` with `lastError`
still `undefined` (line 528 reached with no error recorded). -/
abbrev Outcome := Except (Option JsError) ClaudePromptResult

/-- The `for` loop of lines 404-526, unrolled on the number of remaining
attempts (`fuel`); `a` is the current attempt number, so a call from the
entry point maintains `fuel = mr - a + 1`. Produces one trace segment per
executed attempt, tagged with its attempt number, and the outcome
(`throw lastError` after the loop exhausts). -/
def runFrom (beh : Nat → AttemptBehavior) (mr : Nat) (aud : Bool)
    (p c dsc : String) : Nat → Nat → LoopState → List (Nat × List Event) × Outcome
  | 0, _, s => ([], Except.error s.lastError)
  | fuel + 1, a, s =>
    let step := attemptStep (beh a) a mr aud p c dsc s
    match step.2.1 with
    | StepSig.ret r => ([(a, step.1)], Except.ok r)
    | StepSig.thr e => ([(a, step.1)], Except.error (some e))
    | StepSig.next =>
      let rest := runFrom beh mr aud p c dsc fuel (a + 1) step.2.2
      ((a, step.1) :: rest.1, rest.2)

/-- Result of a whole supervised task: the audit-session initialization
events, the per-attempt trace segments, and the outcome. -/
structure RunResult where
  initEvents : List Event
  attempts : List (Nat × List Event)
  outcome : Outcome
deriving DecidableEq, Repr

/-- `runClaudePromptWithRetry` (lines 382-529): `maxRetries` is the
constant `3` (line 392); `aud` is whether `sessionMetadata && agentName`
holds so that an audit session is created and used; `pat` is the audit
sink's I/O success pattern; `p`, `c`, `dsc` are prompt, context and
description. -/
def runClaudePromptWithRetry (beh : Nat → AttemptBehavior) (aud : Bool)
    (pat : List Bool) (p c dsc : String) : RunResult :=
  let mr := 3
  let s0 : LoopState := { lastError := none, retryContext := c, pat := pat }
  let initEvs : List Event := if aud then [Event.auditInit (peekPat s0)] else []
  let s1 := if aud then popPat s0 else s0
  let r := runFrom beh mr aud p c dsc mr 1 s1
  { initEvents := initEvs, attempts := r.1, outcome := r.2 }

/-! ### Trace predicates -/

/-- Event classifiers used to state ordering and counting properties. -/
def isCheckpointB : Event → Bool
  | Event.checkpoint _ => true
  | _ => false

def isAuditStartB : Event → Bool
  | Event.auditStart _ _ _ => true
  | _ => false

def isExecuteB : Event → Bool
  | Event.execute _ => true
  | _ => false

def isValidateB : Event → Bool
  | Event.validate _ => true
  | _ => false

def isAuditEndB : Event → Bool
  | Event.auditEnd _ _ _ _ => true
  | _ => false

def isCommitB : Event → Bool
  | Event.commitSuccess => true
  | _ => false

def isRollbackB : Event → Bool
  | Event.rollback _ => true
  | _ => false

/-- A commit-or-rollback event (the two workspace mutations the
supervisor performs after an attempt's execution). -/
def isMutationB (e : Event) : Bool := isCommitB e || isRollbackB e

/-- `precededAux p q seen l`: scanning `l` left to right, every `q`-event
is preceded (strictly) by some `p`-event; `seen` records whether a
`p`-event occurred already. -/
def precededAux (p q : Event → Bool) (seen : Bool) : List Event → Bool
  | [] => true
  | e :: rest => (seen || !q e) && precededAux p q (seen || p e) rest

/-- Every `q`-event of `l` has a strictly earlier `p`-event. -/
def eachPrecededBy (p q : Event → Bool) (l : List Event) : Bool :=
  precededAux p q false l

/-- After any `q`-event of `l`, no `p`-event occurs. -/
def noneAfter (p q : Event → Bool) : List Event → Bool
  | [] => true
  | e :: rest =>
    (!q e || rest.all (fun x => !p x)) && noneAfter p q rest

/-- Every event strictly before the first `q`-event of `l` satisfies
`allowed`. -/
def okBeforeFirst (allowed q : Event → Bool) : List Event → Bool
  | [] => true
  | e :: rest => if q e then true else allowed e && okBeforeFirst allowed q rest

/-- Erase the sink-write success bit of audit events: the observable
shape of the trace apart from what the audit recorder itself manages to
persist. -/
def eraseOk : Event → Event
  | Event.auditInit _ => Event.auditInit true
  | Event.auditStart a fp _ => Event.auditStart a fp true
  | Event.auditEnd a su m _ => Event.auditEnd a su m true
  | e => e

/-! ### Concrete inputs used in witnesses and counterexamples -/

/-- A driver failure record: what `runClaudePrompt` returns when the
stream throws (its catch converts the error into a result). -/
def execFailureResult : ClaudePromptResult :=
  { success := false, error := some "stream error", errorType := some "Error" }

/-- Every attempt's driver call returns a failure record. -/
def execFailureBeh : Nat → AttemptBehavior := fun _ =>
  { exec := Except.ok execFailureResult, validationPasses := false }

def execFailureRun : RunResult :=
  runClaudePromptWithRetry execFailureBeh true [] "p" "" "d"

/-- A successful driver result with nonzero cost. -/
def happyResult : ClaudePromptResult :=
  { success := true, result := some "done", cost := 1 }

/-- Every attempt succeeds but fails validation. -/
def valFailBeh : Nat → AttemptBehavior := fun _ =>
  { exec := Except.ok happyResult, validationPasses := false }

def valFailRun : RunResult :=
  runClaudePromptWithRetry valFailBeh true [] "p" "" "d"

/-- Every attempt succeeds and validates. -/
def happyBeh : Nat → AttemptBehavior := fun _ =>
  { exec := Except.ok happyResult, validationPasses := true }

def happyRun : RunResult :=
  runClaudePromptWithRetry happyBeh true [] "p" "" "d"

/-- A non-retryable (fatal) thrown error. -/
def fatalErr : JsError :=
  { message := "authentication failed", errName := "PentestError",
    kind := "auth", retryable := false }

/-- Attempt 1 throws the fatal error. -/
def fatalBeh : Nat → AttemptBehavior := fun _ =>
  { exec := Except.error fatalErr, validationPasses := true }

def fatalRun : RunResult :=
  runClaudePromptWithRetry fatalBeh true [] "p" "" "d"

/-- The stream accumulator of the spec's billing example: one turn, zero
cost, spending-cap text. -/
def billingMsg : MessageLoopResult :=
  { turnCount := 1,
    result := some "Your spending cap has been reached and resets on Monday",
    apiErrorDetected := false,
    cost := 0 }

/-- A retryable error thrown by the message stream. -/
def streamErr : JsError :=
  { message := "fetch failed", errName := "TypeError", retryable := true }

/-- A registered validator that throws. -/
def validatorThrows : String → Except JsError Bool := fun _ =>
  Except.error { message := "ENOENT" }

/-- A registry mapping every agent kind to `validatorThrows`. -/
def registryThrows : String → Option (String → Except JsError Bool) := fun _ =>
  some validatorThrows

/-- A successful result with a textual payload. -/
def okResult : ClaudePromptResult := { success := true, result := some "report written" }

/-- An `FsBehavior` whose `mkdirSync` throws an already-exists error. -/
def eexistFs : FsBehavior :=
  { mkdirErr := some "EEXIST: file already exists", writeErr := none }

/-- The trace segment of `happyRun`'s single (successful, validated)
attempt. -/
def happySeg : List Event :=
  [Event.checkpoint 1, Event.auditStart 1 "p" true, Event.execute 1,
   Event.validate 1, Event.auditEnd 1 true none true, Event.commitSuccess]

/-- The trace segment of `valFailRun`'s first attempt (successful
execution, failed validation, non-final). -/
def valFailSeg : List Event :=
  [Event.checkpoint 1, Event.auditStart 1 "p" true, Event.execute 1,
   Event.validate 1, Event.auditEnd 1 false (some "Output validation failed") true,
   Event.rollback "validation failure"]

/-- The trace segment of `fatalRun`'s single attempt (fatal thrown
error). -/
def fatalSeg : List Event :=
  [Event.checkpoint 1, Event.auditStart 1 "p" true, Event.execute 1,
   Event.auditEnd 1 false (some "authentication failed") true,
   Event.rollback "non-retryable error cleanup"]

/-! ## Theorems -/

/-- C1. The spending-cap heuristic of the execution driver raises a
retryable `billing`-classified error if and only if, after the event
stream completes with accumulators `m`, `turnCount ≤ 2`, the accumulated
cost is `0` and the lowercased result text contains one of the literal
billing keywords; with positive cost it never triggers (whatever the
text), and when it does not trigger `runClaudePrompt` returns the
low-content result as a success. -/
theorem billing_cap_heuristic (d : Nat) (fp : String) (m : MessageLoopResult) :
    ((∃ e, runClaudePromptTry d (Except.ok m) = Except.error e ∧ e.kind = "billing"
        ∧ e.retryable = true)
      ↔ (m.turnCount ≤ 2 ∧ m.cost = 0 ∧ looksLikeBillingError m.result = true))
    ∧ (0 < m.cost → runClaudePromptTry d (Except.ok m) = Except.ok (successRecord d m))
    ∧ (spendingCapCheck m = none →
        runClaudePrompt d fp (Except.ok m) = successRecord d m) := by
  have hchk : ∀ (_ : spendingCapCheck m = none),
      runClaudePromptTry d (Except.ok m) = Except.ok (successRecord d m) := by
    intro h
    simp [runClaudePromptTry, h]
  refine ⟨?_, ?_, ?_⟩
  · constructor
    · rintro ⟨e, he, hk, hr⟩
      by_cases h1 : m.turnCount ≤ 2 ∧ m.cost = 0
      · by_cases h2 : looksLikeBillingError m.result
        · exact ⟨h1.1, h1.2, h2⟩
        · have hn : spendingCapCheck m = none := by
            simp [spendingCapCheck, h1, h2]
          rw [hchk hn] at he
          simp at he
      · have hn : spendingCapCheck m = none := by
          simp [spendingCapCheck, h1]
        rw [hchk hn] at he
        simp at he
    · rintro ⟨ha, hb, hc⟩
      refine ⟨billingCapError m, ?_, rfl, rfl⟩
      simp [runClaudePromptTry, spendingCapCheck, ha, hb, hc]
  · intro hc
    have h1 : ¬ (m.turnCount ≤ 2 ∧ m.cost = 0) := by
      rintro ⟨-, h0⟩
      rw [h0] at hc
      exact lt_irrefl 0 hc
    exact hchk (by simp [spendingCapCheck, h1])
  · intro h
    simp [runClaudePrompt, hchk h]

/-- C1 witness: the spec's own example text with one turn and zero cost
triggers a retryable billing-classified error. -/
theorem billing_cap_heuristic_witness :
    (billingMsg.turnCount ≤ 2 ∧ billingMsg.cost = 0
      ∧ looksLikeBillingError billingMsg.result = true)
    ∧ (∃ e, runClaudePromptTry 5 (Except.ok billingMsg) = Except.error e
        ∧ e.kind = "billing" ∧ e.retryable = true) :=
  ⟨by decide, (billing_cap_heuristic 5 "p" billingMsg).1.mpr (by decide)⟩

/-- C10. `runClaudePrompt` totalizes execution errors: whenever its `try`
body throws (a stream error, or the billing-cap error it raises itself),
the caller receives no exception but a result record with
`success = false`, the error's message, its constructor name as
`errorType`, the cost accumulated so far, and `retryable` set to
`isRetryableError` of the error. -/
theorem run_claude_prompt_totalizes (d : Nat) (fp : String)
    (so : Except JsError MessageLoopResult) (e : JsError)
    (h : runClaudePromptTry d so = Except.error e) :
    runClaudePrompt d fp so =
      { error := some e.message, errorType := some e.errName,
        prompt := some (fp.take 100 ++ "..."), success := false,
        duration := d, cost := costAtCatch so,
        retryable := some (isRetryableError e) } := by
  simp [runClaudePrompt, h]

/-- C10 witness: a thrown stream error becomes a failure record. -/
theorem run_claude_prompt_totalizes_witness :
    runClaudePrompt 7 "do the task" (Except.error streamErr) =
      { error := some streamErr.message, errorType := some streamErr.errName,
        prompt := some ("do the task".take 100 ++ "..."), success := false,
        duration := 7, cost := costAtCatch (Except.error streamErr),
        retryable := some (isRetryableError streamErr) } :=
  run_claude_prompt_totalizes 7 "do the task" (Except.error streamErr) streamErr rfl

/-- C6. `validateAgentOutput` fails closed: it returns `false` when the
result is unsuccessful or has no textual payload; otherwise it returns
`true` when no validator is registered for the agent kind, the
registered validator's boolean when it returns one, and `false` when the
registered validator throws. -/
theorem validate_agent_output_spec (r : ClaudePromptResult) (an : Option String)
    (vs : String → Option (String → Except JsError Bool)) (sd : String) :
    ((r.success = false ∨ jsTruthyStr r.result = false) →
        validateAgentOutput r an vs sd = false)
    ∧ (r.success = true → jsTruthyStr r.result = true → an.bind vs = none →
        validateAgentOutput r an vs sd = true)
    ∧ (∀ v b, r.success = true → jsTruthyStr r.result = true →
        an.bind vs = some v → v sd = Except.ok b →
        validateAgentOutput r an vs sd = b)
    ∧ (∀ v e, r.success = true → jsTruthyStr r.result = true →
        an.bind vs = some v → v sd = Except.error e →
        validateAgentOutput r an vs sd = false) := by
  refine ⟨?_, ?_, ?_, ?_⟩
  · rintro (h | h) <;> simp [validateAgentOutput, h]
  · intro h1 h2 h3
    simp [validateAgentOutput, h1, h2, h3]
  · intro v b h1 h2 h3 h4
    simp [validateAgentOutput, h1, h2, h3, h4]
  · intro v e h1 h2 h3 h4
    simp [validateAgentOutput, h1, h2, h3, h4]

/-- C6 witness: a successful result with payload and a validator that
throws yields `false` (the exception is swallowed). -/
theorem validate_agent_output_spec_witness :
    validateAgentOutput okResult (some "nuclei-agent") registryThrows "/ws" = false :=
  (validate_agent_output_spec okResult (some "nuclei-agent") registryThrows "/ws").2.2.2
    validatorThrows { message := "ENOENT" } rfl rfl rfl rfl

/-- C8. `saveDeliverableFile` ensures the `deliverables` subdirectory
(an already-exists `mkdirSync` failure is swallowed), writes the content
in a single write, returns the joined path — absolute whenever
`targetDir` is — and fails with a descriptive error naming the
underlying OS error when the directory cannot be created or the file
cannot be written. -/
theorem save_deliverable_file_contract (fsb : FsBehavior)
    (targetDir filename content : String) :
    ((fsb.mkdirErr = none ∨ ∃ msg, fsb.mkdirErr = some msg
        ∧ containsSub msg "EEXIST" = true) →
      fsb.writeErr = none →
      saveDeliverableFile fsb targetDir filename content
        = Except.ok (joinPath (joinPath targetDir "deliverables") filename))
    ∧ (∀ msg, fsb.mkdirErr = some msg → containsSub msg "EEXIST" = false →
        saveDeliverableFile fsb targetDir filename content
          = Except.error ("Cannot create deliverables directory: " ++ msg
              ++ ". Check Docker volume permissions."))
    ∧ (∀ msg, (fsb.mkdirErr = none ∨ ∃ m2, fsb.mkdirErr = some m2
          ∧ containsSub m2 "EEXIST" = true) →
        fsb.writeErr = some msg →
        saveDeliverableFile fsb targetDir filename content
          = Except.error ("Cannot write deliverable file: " ++ msg
              ++ ". Check Docker volume permissions (UID mismatch?)."))
    ∧ (∀ t, targetDir = "/" ++ t → fsb.mkdirErr = none → fsb.writeErr = none →
        saveDeliverableFile fsb targetDir filename content
          = Except.ok ("/" ++ (t ++ ("/deliverables/" ++ filename)))) := by
  refine ⟨?_, ?_, ?_, ?_⟩
  · intro hmk hw
    rcases hmk with h | ⟨msg, h, hee⟩
    · simp [saveDeliverableFile, h, hw]
    · simp [saveDeliverableFile, h, hw, hee]
  · intro msg h hee
    simp [saveDeliverableFile, h, hee]
  · intro msg hmk hw
    rcases hmk with h | ⟨m2, h, hee⟩
    · simp [saveDeliverableFile, h, hw]
    · simp [saveDeliverableFile, h, hw, hee]
  · intro t ht h hw
    subst ht
    simp [saveDeliverableFile, h, hw, joinPath, String.append_assoc]

/-- C8 witness: an `EEXIST` mkdir failure is not an error and the joined
path is returned. -/
theorem save_deliverable_file_contract_witness :
    saveDeliverableFile eexistFs "/work" "report.md" "hello"
      = Except.ok (joinPath (joinPath "/work" "deliverables") "report.md") :=
  (save_deliverable_file_contract eexistFs "/work" "report.md" "hello").1
    (Or.inr ⟨"EEXIST: file already exists", rfl, by decide⟩) rfl

/-- C2 (code bug). When every attempt's driver call returns a failure
record (`success = false`) — the only way execution fails, since
`runClaudePrompt` never throws — the retry supervisor performs no
rollback at all, records no attempt-end, and finishes by throwing the
still-undefined `lastError` (modelled `Except.error none`), not a
non-null error after a rollback. -/
theorem retry_all_exec_failures_drops_error_and_rollback :
    execFailureRun.outcome = Except.error none
    ∧ execFailureRun.attempts.map Prod.fst = [1, 2, 3]
    ∧ execFailureRun.attempts.map (fun sg => (sg.2.filter isRollbackB).length) = [0, 0, 0]
    ∧ execFailureRun.attempts.map (fun sg => (sg.2.filter isAuditEndB).length) = [0, 0, 0] := by
  decide

/-- C3 (code bug). With the audit session wired, a task whose three
attempts all succeed but fail validation writes the attempt-end record
once for attempts 1 and 2 but twice for the final attempt: the
validation-failure record (line 454) and then, because the
attempts-exhausted `PentestError` thrown at line 475 is caught by the
same iteration's own catch block, a second record at line 490. -/
theorem final_validation_failure_double_audit_end :
    valFailRun.attempts.map (fun sg => (sg.2.filter isAuditEndB).length) = [1, 1, 2]
    ∧ valFailRun.outcome = Except.error (some (pentestValidationError "d" 3)) := by
  decide

/-- C4 counterexample. On a successful, validated attempt the success
commit exists but the attempt-end audit record is written before it, so
the claimed ordering "commit-or-rollback precedes the audit-end record"
is false on this concrete run. -/
theorem commit_not_before_audit_end :
    happyRun.attempts.map (fun sg => eachPrecededBy isMutationB isAuditEndB sg.2) = [false]
    ∧ happyRun.attempts.map (fun sg => (sg.2.filter isCommitB).length) = [1]
    ∧ happyRun.attempts.map (fun sg => (sg.2.filter isAuditEndB).length) = [1]
    ∧ happyRun.outcome = Except.ok happyResult := by
  decide

/-- Helper: structural properties of the event list of one loop
iteration, whatever the attempt behaviour, audit wiring and state: the
segment opens with the checkpoint, contains the execution, only the
checkpoint and the audit attempt-start precede the execution, every
validation / audit-end / commit-or-rollback comes after the execution,
and no validation or audit-end comes after a commit-or-rollback. -/
theorem attemptStep_props (beh : AttemptBehavior) (a mr : Nat) (aud : Bool)
    (p c dsc : String) (s : LoopState) :
    (attemptStep beh a mr aud p c dsc s).1.head? = some (Event.checkpoint a)
    ∧ Event.execute a ∈ (attemptStep beh a mr aud p c dsc s).1
    ∧ okBeforeFirst (fun e => isCheckpointB e || isAuditStartB e) isExecuteB
        (attemptStep beh a mr aud p c dsc s).1 = true
    ∧ eachPrecededBy isCheckpointB isExecuteB (attemptStep beh a mr aud p c dsc s).1 = true
    ∧ eachPrecededBy isExecuteB isValidateB (attemptStep beh a mr aud p c dsc s).1 = true
    ∧ eachPrecededBy isExecuteB isAuditEndB (attemptStep beh a mr aud p c dsc s).1 = true
    ∧ eachPrecededBy isExecuteB isMutationB (attemptStep beh a mr aud p c dsc s).1 = true
    ∧ noneAfter isValidateB isMutationB (attemptStep beh a mr aud p c dsc s).1 = true
    ∧ noneAfter isAuditEndB isMutationB (attemptStep beh a mr aud p c dsc s).1 = true := by
  rcases hbe : beh.exec with err | result
  · rcases hr : err.retryable with _ | _ <;>
      by_cases hlt : a < mr <;>
        cases hpr : err.partResults <;>
          cases aud <;>
            simp [attemptStep, catchPart, isRetryableError, hbe, hr, hlt, hpr,
              okBeforeFirst, eachPrecededBy, precededAux, noneAfter,
              isCheckpointB, isAuditStartB, isExecuteB, isValidateB,
              isAuditEndB, isMutationB, isCommitB, isRollbackB]
  · rcases hsu : result.success with _ | _
    · cases aud <;>
        simp [attemptStep, hbe, hsu,
          okBeforeFirst, eachPrecededBy, precededAux, noneAfter,
          isCheckpointB, isAuditStartB, isExecuteB, isValidateB,
          isAuditEndB, isMutationB, isCommitB, isRollbackB]
    · rcases hv : beh.validationPasses with _ | _ <;>
        by_cases hlt : a < mr <;>
          cases aud <;>
            simp [attemptStep, catchPart, isRetryableError, pentestValidationError,
              hbe, hsu, hv, hlt,
              okBeforeFirst, eachPrecededBy, precededAux, noneAfter,
              isCheckpointB, isAuditStartB, isExecuteB, isValidateB,
              isAuditEndB, isMutationB, isCommitB, isRollbackB]

/-- Helper: every trace segment produced by the retry loop is the event
list of one `attemptStep` iteration for its attempt number (at some loop
state). -/
theorem runFrom_seg_mem (beh : Nat → AttemptBehavior) (mr : Nat) (aud : Bool)
    (p c dsc : String) :
    ∀ fuel a s k evs, (k, evs) ∈ (runFrom beh mr aud p c dsc fuel a s).1 →
      ∃ s', evs = (attemptStep (beh k) k mr aud p c dsc s').1 := by
  intro fuel
  induction fuel with
  | zero =>
    intro a s k evs h
    simp [runFrom] at h
  | succ n ih =>
    intro a s k evs h
    rw [runFrom] at h
    rcases hsig : (attemptStep (beh a) a mr aud p c dsc s).2.1 with r | e
    · rw [hsig] at h
      simp at h
      exact ⟨s, by rw [h.2, h.1]⟩
    · rw [hsig] at h
      simp at h
      exact ⟨s, by rw [h.2, h.1]⟩
    · rw [hsig] at h
      simp at h
      rcases h with ⟨hk, hevs⟩ | htail
      · exact ⟨s, by rw [hevs, hk]⟩
      · exact ih _ _ _ _ htail

/-- C4 (amended). Within one task, every executed attempt's trace
segment satisfies: checkpoint-create precedes execution, execution
precedes validation, execution precedes the attempt-end audit record and
the commit-or-rollback, validation precedes the commit-or-rollback, and
the attempt-end audit record precedes (never follows) the
commit-or-rollback — the code writes the audit-end record before the
success commit or the rollback, the reverse of the claimed order. -/
theorem attempt_ordering_amended (beh : Nat → AttemptBehavior) (aud : Bool)
    (pat : List Bool) (p c dsc : String) (k : Nat) (evs : List Event)
    (hmem : (k, evs) ∈ (runClaudePromptWithRetry beh aud pat p c dsc).attempts) :
    eachPrecededBy isCheckpointB isExecuteB evs = true
    ∧ eachPrecededBy isExecuteB isValidateB evs = true
    ∧ eachPrecededBy isExecuteB isAuditEndB evs = true
    ∧ eachPrecededBy isExecuteB isMutationB evs = true
    ∧ noneAfter isValidateB isMutationB evs = true
    ∧ noneAfter isAuditEndB isMutationB evs = true := by
  obtain ⟨s', hevs⟩ := runFrom_seg_mem beh 3 aud p c dsc 3 1 _ k evs hmem
  subst hevs
  obtain ⟨-, -, -, h4, h5, h6, h7, h8, h9⟩ :=
    attemptStep_props (beh k) k 3 aud p c dsc s'
  exact ⟨h4, h5, h6, h7, h8, h9⟩

/-- C4 witness: the amended ordering on the successful validated run's
single segment. -/
theorem attempt_ordering_amended_witness :
    ((1, happySeg) ∈ happyRun.attempts)
    ∧ (eachPrecededBy isCheckpointB isExecuteB happySeg = true
      ∧ eachPrecededBy isExecuteB isValidateB happySeg = true
      ∧ eachPrecededBy isExecuteB isAuditEndB happySeg = true
      ∧ eachPrecededBy isExecuteB isMutationB happySeg = true
      ∧ noneAfter isValidateB isMutationB happySeg = true
      ∧ noneAfter isAuditEndB isMutationB happySeg = true) :=
  ⟨by decide,
   attempt_ordering_amended happyBeh true [] "p" "" "d" 1 happySeg (by decide)⟩

/-- C9. Every attempt the retry loop executes is immediately preceded by
its own checkpoint creation: the attempt's segment opens with
`checkpoint` for that attempt number, contains the execution call, and
nothing but the checkpoint and the audit attempt-start record — in
particular no workspace mutation — happens before the execution. This
holds on retries as well (the next attempt's segment recreates a
checkpoint). -/
theorem checkpoint_before_every_execution (beh : Nat → AttemptBehavior) (aud : Bool)
    (pat : List Bool) (p c dsc : String) (k : Nat) (evs : List Event)
    (hmem : (k, evs) ∈ (runClaudePromptWithRetry beh aud pat p c dsc).attempts) :
    evs.head? = some (Event.checkpoint k)
    ∧ Event.execute k ∈ evs
    ∧ okBeforeFirst (fun e => isCheckpointB e || isAuditStartB e) isExecuteB evs = true := by
  obtain ⟨s', hevs⟩ := runFrom_seg_mem beh 3 aud p c dsc 3 1 _ k evs hmem
  subst hevs
  obtain ⟨h1, h2, h3, -⟩ := attemptStep_props (beh k) k 3 aud p c dsc s'
  exact ⟨h1, h2, h3⟩

/-- C9 witness: the first (validation-failing) attempt of the
validation-failure run, a retried attempt's checkpoint being covered by
the theorem's generality. -/
theorem checkpoint_before_every_execution_witness :
    ((1, valFailSeg) ∈ valFailRun.attempts)
    ∧ (valFailSeg.head? = some (Event.checkpoint 1)
      ∧ Event.execute 1 ∈ valFailSeg
      ∧ okBeforeFirst (fun e => isCheckpointB e || isAuditStartB e) isExecuteB valFailSeg
          = true) :=
  ⟨by decide,
   checkpoint_before_every_execution valFailBeh true [] "p" "" "d" 1 valFailSeg (by decide)⟩

/-- Helper: an attempt whose driver call throws a non-retryable error
ends its iteration by rethrowing that error. -/
theorem attemptStep_fatal_sig (beh : AttemptBehavior) (a mr : Nat) (aud : Bool)
    (p c dsc : String) (s : LoopState) (e : JsError)
    (hbe : beh.exec = Except.error e) (hf : e.retryable = false) :
    (attemptStep beh a mr aud p c dsc s).2.1 = StepSig.thr e := by
  cases aud <;> simp [attemptStep, catchPart, isRetryableError, hbe, hf]

/-- Helper: the trace segment of an attempt whose driver call throws a
non-retryable error contains exactly one checkpoint and exactly one
rollback. -/
theorem attemptStep_fatal_counts (beh : AttemptBehavior) (a mr : Nat) (aud : Bool)
    (p c dsc : String) (s : LoopState) (e : JsError)
    (hbe : beh.exec = Except.error e) (hf : e.retryable = false) :
    ((attemptStep beh a mr aud p c dsc s).1.filter isCheckpointB).length = 1
    ∧ ((attemptStep beh a mr aud p c dsc s).1.filter isRollbackB).length = 1 := by
  cases aud <;>
    simp [attemptStep, catchPart, isRetryableError, hbe, hf,
      isCheckpointB, isRollbackB, List.filter]

/-- Helper: `getLast?` skips the head of a list with a nonempty tail. -/
theorem getLast?_cons_ne_nil {α : Type} (x : α) (l : List α) (h : l ≠ []) :
    (x :: l).getLast? = l.getLast? := by
  cases l with
  | nil => exact absurd rfl h
  | cons y ys => simp [List.getLast?_cons_cons]

/-- Helper: attempt numbers of the executed segments are contiguous
starting at the initial attempt number. -/
theorem runFrom_fst_range (beh : Nat → AttemptBehavior) (mr : Nat) (aud : Bool)
    (p c dsc : String) :
    ∀ fuel a s, ((runFrom beh mr aud p c dsc fuel a s).1).map Prod.fst
      = List.range' a ((runFrom beh mr aud p c dsc fuel a s).1).length := by
  intro fuel
  induction fuel with
  | zero => intro a s; simp [runFrom]
  | succ n ih =>
    intro a s
    rw [runFrom]
    rcases hsig : (attemptStep (beh a) a mr aud p c dsc s).2.1 with r | e | _
    · simp [hsig, List.range']
    · simp [hsig, List.range']
    · simp only [hsig]
      simp [List.range'_succ, ih]

/-- Helper: if some executed attempt's driver call throws a
non-retryable error, the loop's outcome is that rethrown error and that
attempt's segment is the last one (no later attempts execute). -/
theorem runFrom_fatal (beh : Nat → AttemptBehavior) (mr : Nat) (aud : Bool)
    (p c dsc : String) (e : JsError) (hf : e.retryable = false) :
    ∀ fuel a s k evs, (k, evs) ∈ (runFrom beh mr aud p c dsc fuel a s).1 →
      (beh k).exec = Except.error e →
      (runFrom beh mr aud p c dsc fuel a s).2 = Except.error (some e)
      ∧ (runFrom beh mr aud p c dsc fuel a s).1.getLast? = some (k, evs) := by
  intro fuel
  induction fuel with
  | zero => intro a s k evs h; simp [runFrom] at h
  | succ n ih =>
    intro a s k evs h hbe
    rw [runFrom] at h ⊢
    rcases hsig : (attemptStep (beh a) a mr aud p c dsc s).2.1 with r | e' | _
    · rw [hsig] at h
      simp at h
      have hthr := attemptStep_fatal_sig (beh a) a mr aud p c dsc s e (h.1 ▸ hbe) hf
      rw [hsig] at hthr
      simp at hthr
    · rw [hsig] at h
      simp at h
      have hthr := attemptStep_fatal_sig (beh a) a mr aud p c dsc s e (h.1 ▸ hbe) hf
      rw [hsig] at hthr
      have he : e' = e := by injection hthr
      subst he
      simp [h.1, h.2]
    · rw [hsig] at h
      simp at h
      rcases h with ⟨hk, hevs⟩ | htail
      · have hthr := attemptStep_fatal_sig (beh a) a mr aud p c dsc s e (hk ▸ hbe) hf
        rw [hsig] at hthr
        simp at hthr
      · have hrec := ih (a + 1) (attemptStep (beh a) a mr aud p c dsc s).2.2 k evs htail hbe
        refine ⟨hrec.1, ?_⟩
        have hne : (runFrom beh mr aud p c dsc n (a + 1)
            (attemptStep (beh a) a mr aud p c dsc s).2.2).1 ≠ [] := by
          intro hnil
          rw [hnil] at hrec
          simp at hrec
        simp only []
        rw [getLast?_cons_ne_nil _ _ hne]
        exact hrec.2

/-- C5. If an executed attempt's driver call throws an error classified
as non-retryable, the supervisor rethrows exactly that error (the
outcome is the rethrown error), that attempt is the last one executed
(its segment closes the contiguous run of attempt numbers starting at
1 — in particular with the fatal error on attempt 1 no second or third
attempt runs), and the handling of that attempt creates exactly one
checkpoint and performs exactly one rollback. -/
theorem fatal_error_stops_retry (beh : Nat → AttemptBehavior) (aud : Bool)
    (pat : List Bool) (p c dsc : String) (k : Nat) (evs : List Event) (e : JsError)
    (hmem : (k, evs) ∈ (runClaudePromptWithRetry beh aud pat p c dsc).attempts)
    (hbe : (beh k).exec = Except.error e)
    (hf : e.retryable = false) :
    (runClaudePromptWithRetry beh aud pat p c dsc).outcome = Except.error (some e)
    ∧ (runClaudePromptWithRetry beh aud pat p c dsc).attempts.getLast? = some (k, evs)
    ∧ (runClaudePromptWithRetry beh aud pat p c dsc).attempts.map Prod.fst
        = List.range' 1 (runClaudePromptWithRetry beh aud pat p c dsc).attempts.length
    ∧ (evs.filter isCheckpointB).length = 1
    ∧ (evs.filter isRollbackB).length = 1 := by
  have h1 := runFrom_fatal beh 3 aud p c dsc e hf 3 1 _ k evs hmem hbe
  have h2 := runFrom_fst_range beh 3 aud p c dsc 3 1
    (if aud then popPat { lastError := none, retryContext := c, pat := pat }
     else { lastError := none, retryContext := c, pat := pat })
  obtain ⟨s', hevs⟩ := runFrom_seg_mem beh 3 aud p c dsc 3 1 _ k evs hmem
  have h3 := attemptStep_fatal_counts (beh k) k 3 aud p c dsc s' e hbe hf
  rw [← hevs] at h3
  exact ⟨h1.1, h1.2, h2, h3.1, h3.2⟩

/-- C5 witness: a fatal error on attempt 1 yields one checkpoint, one
rollback, an immediate rethrow, and no attempt 2 or 3. -/
theorem fatal_error_stops_retry_witness :
    ((1, fatalSeg) ∈ fatalRun.attempts ∧ (fatalBeh 1).exec = Except.error fatalErr
      ∧ fatalErr.retryable = false)
    ∧ (fatalRun.outcome = Except.error (some fatalErr)
      ∧ fatalRun.attempts.getLast? = some (1, fatalSeg)
      ∧ fatalRun.attempts.map Prod.fst = List.range' 1 fatalRun.attempts.length
      ∧ (fatalSeg.filter isCheckpointB).length = 1
      ∧ (fatalSeg.filter isRollbackB).length = 1) :=
  ⟨⟨by decide, rfl, rfl⟩,
   fatal_error_stops_retry fatalBeh true [] "p" "" "d" 1 fatalSeg fatalErr
     (by decide) rfl rfl⟩

/-- Helper: the catch block's events (up to the recorded sink-write
bits), its exit signal and the core of its resulting state (`lastError`,
`retryContext`) do not depend on the audit sink's I/O pattern. -/
theorem catchPart_congr (a mr : Nat) (aud : Bool) (c : String) (err : JsError)
    (s1 s2 : LoopState) (hl : s1.lastError = s2.lastError)
    (hc : s1.retryContext = s2.retryContext) :
    (catchPart a mr aud c err s1).1.map eraseOk = (catchPart a mr aud c err s2).1.map eraseOk
    ∧ (catchPart a mr aud c err s1).2.1 = (catchPart a mr aud c err s2).2.1
    ∧ (catchPart a mr aud c err s1).2.2.lastError = (catchPart a mr aud c err s2).2.2.lastError
    ∧ (catchPart a mr aud c err s1).2.2.retryContext
        = (catchPart a mr aud c err s2).2.2.retryContext := by
  cases aud <;>
    by_cases hr : isRetryableError err = false <;>
      by_cases hlt : a < mr <;>
        cases hpr : err.partResults <;>
          simp [catchPart, peekPat, popPat, eraseOk, hr, hlt, hpr, hl, hc]

/-- Helper: one loop iteration's events (up to the recorded sink-write
bits), exit signal, and core resulting state do not depend on the audit
sink's I/O pattern. -/
theorem attemptStep_congr (beh : AttemptBehavior) (a mr : Nat) (aud : Bool)
    (p c dsc : String) (s1 s2 : LoopState)
    (hl : s1.lastError = s2.lastError) (hc : s1.retryContext = s2.retryContext) :
    (attemptStep beh a mr aud p c dsc s1).1.map eraseOk
      = (attemptStep beh a mr aud p c dsc s2).1.map eraseOk
    ∧ (attemptStep beh a mr aud p c dsc s1).2.1 = (attemptStep beh a mr aud p c dsc s2).2.1
    ∧ (attemptStep beh a mr aud p c dsc s1).2.2.lastError
        = (attemptStep beh a mr aud p c dsc s2).2.2.lastError
    ∧ (attemptStep beh a mr aud p c dsc s1).2.2.retryContext
        = (attemptStep beh a mr aud p c dsc s2).2.2.retryContext := by
  have hl0 : ∀ b : Bool, (if b then popPat s1 else s1).lastError
      = (if b then popPat s2 else s2).lastError := by
    intro b; cases b <;> simp [popPat, hl]
  have hc0 : ∀ b : Bool, (if b then popPat s1 else s1).retryContext
      = (if b then popPat s2 else s2).retryContext := by
    intro b; cases b <;> simp [popPat, hc]
  rcases hbe : beh.exec with err | result
  · have hcp := catchPart_congr a mr aud c err
      (if aud then popPat s1 else s1) (if aud then popPat s2 else s2) (hl0 aud) (hc0 aud)
    cases aud <;>
      simp [attemptStep, hbe, eraseOk, hc, fullPromptOf] <;>
      exact ⟨hcp.1, hcp.2.1, hcp.2.2.1, hcp.2.2.2⟩
  · rcases hsu : result.success with _ | _
    · cases aud <;> simp [attemptStep, hbe, hsu, eraseOk, hc, fullPromptOf, popPat, hl]
    · rcases hv : beh.validationPasses with _ | _
      · by_cases hlt : a < mr
        · cases aud <;>
            simp [attemptStep, hbe, hsu, hv, hlt, eraseOk, hc, fullPromptOf, popPat, hl]
        · cases aud <;>
            simp [attemptStep, hbe, hsu, hv, hlt, eraseOk, hc, fullPromptOf, popPat] <;>
            exact catchPart_congr _ _ _ _ _ _ _ rfl rfl
      · cases aud <;>
          simp [attemptStep, hbe, hsu, hv, eraseOk, hc, fullPromptOf, popPat, hl]

/-- Helper: the retry loop's outcome and its trace (up to the recorded
sink-write bits) are identical for any two core-equal starting states —
in particular for any two audit-sink I/O patterns. -/
theorem runFrom_congr (beh : Nat → AttemptBehavior) (mr : Nat) (aud : Bool)
    (p c dsc : String) :
    ∀ fuel a s1 s2, s1.lastError = s2.lastError → s1.retryContext = s2.retryContext →
      (runFrom beh mr aud p c dsc fuel a s1).1.map (fun sg => (sg.1, sg.2.map eraseOk))
        = (runFrom beh mr aud p c dsc fuel a s2).1.map (fun sg => (sg.1, sg.2.map eraseOk))
      ∧ (runFrom beh mr aud p c dsc fuel a s1).2 = (runFrom beh mr aud p c dsc fuel a s2).2 := by
  intro fuel
  induction fuel with
  | zero =>
    intro a s1 s2 hl hc
    simp [runFrom, hl]
  | succ n ih =>
    intro a s1 s2 hl hc
    have hstep := attemptStep_congr (beh a) a mr aud p c dsc s1 s2 hl hc
    rw [runFrom, runFrom]
    rcases hsig : (attemptStep (beh a) a mr aud p c dsc s1).2.1 with r | e | _ <;>
      rw [hstep.2.1] at hsig
    · rw [hsig]
      simp [hstep.1]
    · rw [hsig]
      simp [hstep.1]
    · rw [hsig]
      have hrec := ih (a + 1) (attemptStep (beh a) a mr aud p c dsc s1).2.2
        (attemptStep (beh a) a mr aud p c dsc s2).2.2 hstep.2.2.1 hstep.2.2.2
      simp [hstep.1, hrec.1, hrec.2]

/-- C7. The supervisor's control flow is observably identical whether or
not the audit sink's writes succeed: for any two I/O success patterns
the returned-or-thrown outcome is equal and the whole effect trace is
equal up to the success bit the audit recorder itself stores; moreover a
failure to append the diagnostic error log is swallowed by
`writeErrorLog`, which returns normally either way. -/
theorem audit_failures_unobservable (beh : Nat → AttemptBehavior) (aud : Bool)
    (p c dsc : String) (pat1 pat2 : List Bool) :
    (runClaudePromptWithRetry beh aud pat1 p c dsc).outcome
      = (runClaudePromptWithRetry beh aud pat2 p c dsc).outcome
    ∧ (runClaudePromptWithRetry beh aud pat1 p c dsc).initEvents.map eraseOk
      = (runClaudePromptWithRetry beh aud pat2 p c dsc).initEvents.map eraseOk
    ∧ (runClaudePromptWithRetry beh aud pat1 p c dsc).attempts.map
        (fun sg => (sg.1, sg.2.map eraseOk))
      = (runClaudePromptWithRetry beh aud pat2 p c dsc).attempts.map
        (fun sg => (sg.1, sg.2.map eraseOk))
    ∧ (∀ appendErr, ∃ diag, writeErrorLog appendErr = Except.ok diag) := by
  have h := runFrom_congr beh 3 aud p c dsc 3 1
    (if aud then popPat { lastError := none, retryContext := c, pat := pat1 }
     else { lastError := none, retryContext := c, pat := pat1 })
    (if aud then popPat { lastError := none, retryContext := c, pat := pat2 }
     else { lastError := none, retryContext := c, pat := pat2 })
    (by cases aud <;> simp [popPat]) (by cases aud <;> simp [popPat])
  refine ⟨h.2, ?_, h.1, ?_⟩
  · cases aud <;> simp [runClaudePromptWithRetry, eraseOk]
  · intro appendErr
    cases appendErr <;> exact ⟨_, rfl⟩

end ShannonProxy
